import Mathlib

/-!
Verification of the amello-mcp orchestration layer: a shallow embedding of the
JSON-RPC tool router (`api/mcp.js` drop-in handler and the `api/_lib/amelloTools.js`
drop-in handler) and of the chat orchestrators (`api/chat.js`, `api/chat.ts`),
with theorems settling the spec's claims about them.

Conventions of the embedding:
* JSON values are the inductive `Json`; JavaScript property access, truthiness,
  `String(...)` conversion and object spread are modelled by explicit functions.
* An object property whose value is `undefined` is omitted from the constructed
  object, matching what `JSON.stringify` emits on the wire.
* Outbound HTTP effects (`fetch`, the LLM provider, the router seen from the chat
  endpoint) are oracle parameters: functions supplied to the embedded handlers
  that return the outcome (`Except JsErr`) the awaited call would have had.
* A thrown JavaScript value is `JsErr`, carrying `e.message` and `String(e)`.
-/

/-- A JSON value as the handlers manipulate it (numbers in this code base are
integers: ids, error codes, page numbers, schema bounds). -/
inductive Json where
  | null
  | bool (b : Bool)
  | num (n : Int)
  | str (s : String)
  | arr (elems : List Json)
  | obj (members : List (String × Json))
deriving Inhabited, Repr

/-- JavaScript falsiness of a JSON value: `null`, `false`, `0` and `""` are
falsy; every object and array is truthy. -/
def jsFalsy : Json → Bool
  | .null => true
  | .bool b => !b
  | .num n => n == 0
  | .str s => s == ""
  | .arr _ => false
  | .obj _ => false

/-- Property read `v[k]` as JavaScript resolves it on JSON data: defined members
of objects are found (first member wins, as parsed objects have unique keys);
every other read is `undefined`, here `none`. -/
def jGet (v : Json) (k : String) : Option Json :=
  match v with
  | .obj kvs => kvs.lookup k
  | _ => none

/-- Optional-chained read `v?.[k]`: `undefined` when the base itself is absent. -/
def jGetOpt (v : Option Json) (k : String) : Option Json :=
  match v with
  | some j => jGet j k
  | none => none

/-- Nullish read: a present-but-`null` property behaves like an absent one for
the `??` operator. -/
def jGetNullish (v : Option Json) (k : String) : Option Json :=
  match jGetOpt v k with
  | some .null => none
  | o => o

/-- Truthiness of a possibly-undefined value (`undefined` is falsy). -/
def jsTruthyOpt : Option Json → Bool
  | none => false
  | some v => !jsFalsy v

/-- The JavaScript `a || b` on a possibly-undefined `a`: `a` when truthy, else `b`. -/
def jsOr (a : Option Json) (b : Json) : Json :=
  match a with
  | some v => if jsFalsy v then b else v
  | none => b

mutual
/-- The JavaScript `String(v)` conversion on JSON data: primitives print as JS
prints them, arrays join their elements with commas (`null` elements print
empty), plain objects print `[object Object]`. -/
def jsString : Json → String
  | .null => "null"
  | .bool b => cond b "true" "false"
  | .num n => toString n
  | .str s => s
  | .arr xs => jsStringJoin xs
  | .obj _ => "[object Object]"

/-- `Array.prototype.join(",")` over the elements, as `String(array)` performs it. -/
def jsStringJoin : List Json → String
  | [] => ""
  | [Json.null] => ""
  | [x] => jsString x
  | Json.null :: xs => "," ++ jsStringJoin xs
  | x :: xs => jsString x ++ "," ++ jsStringJoin xs
end

/-- Template interpolation of a possibly-undefined value, as in
&#96;Tool not found: &#36;&#x7b;name&#x7d;&#96;: `undefined` prints as "undefined". -/
def jsStringOpt : Option Json → String
  | none => "undefined"
  | some v => jsString v

/-- A thrown JavaScript value: `message` is `e.message` (empty when absent) and
`asString` is `String(e)` (for an `Error` instance, "Error: " plus the message). -/
structure JsErr where
  message : String
  asString : String
deriving Inhabited, Repr

/-- The idiom &#96;e?.message || String(e)&#96; both handlers use to render a caught value. -/
def excMsg (e : JsErr) : String :=
  if e.message = "" then e.asString else e.message

/-- Response envelope builder `rpcResult` (api/mcp.js line 391):
`id` has already been defaulted to `null` by `normalizeReq`. -/
def rpcResult (id : Json) (result : Json) : Json :=
  .obj [("jsonrpc", .str "2.0"), ("id", id), ("result", result)]

/-- Response envelope builder `rpcError` (api/mcp.js line 392); an undefined
`data` member is omitted, as serialization drops it. -/
def rpcError (id : Json) (code : Int) (message : String) (data : Option Json) : Json :=
  .obj [("jsonrpc", .str "2.0"), ("id", id),
    ("error", .obj ([("code", .num code), ("message", .str message)] ++
      (match data with
       | some d => [("data", d)]
       | none => [])))]

/-- A registered tool: name, schemas, and the handler. The handler is a function
from the raw `arguments` object to the tool result; a `.error` outcome models the
handler throwing. The built-in Amello tools catch their own exceptions and so
always return `.ok`. -/
structure Tool where
  name : String
  description : String
  inputSchema : Json
  outputSchema : Json
  handler : Json → Except JsErr Json

/-- A shape-validated JSON-RPC request, the output of `normalizeReq`:
`id` defaulted to `null`, `method` a string, `params` possibly undefined. -/
structure NormReq where
  id : Json
  method : String
  params : Option Json
deriving Inhabited

/-- `normalizeReq` (api/mcp.js lines 734-738, identical in amelloTools.js):
anything but an object carrying a string `method` is rejected; `id` is
defaulted via `x.id ?? null`. -/
def normalizeReq (x : Json) : Option NormReq :=
  match x with
  | .obj kvs =>
    match kvs.lookup "method" with
    | some (.str m) =>
      some { id := (kvs.lookup "id").getD .null, method := m, params := kvs.lookup "params" }
    | _ => none
  | _ => none

/-- The entry `tools/list` publishes for a registered tool (api/mcp.js lines
743-748): description defaults to `""` and schemas to `{}` when falsy. -/
def toolListEntry (t : Tool) : Json :=
  .obj [("name", .str t.name),
    ("description", .str (if t.description = "" then "" else t.description)),
    ("inputSchema", if jsFalsy t.inputSchema then .obj [] else t.inputSchema),
    ("outputSchema", if jsFalsy t.outputSchema then .obj [] else t.outputSchema)]

/-- Tool lookup `tools.find(t => t.name === name)`: strict equality only ever
matches when the requested name is a string. -/
def findTool (tools : List Tool) (name : Option Json) : Option Tool :=
  match name with
  | some (.str s) => tools.find? (fun t => t.name == s)
  | _ => none

/-- Argument extraction of the mcp.js router (line 754):
&#96;(params && (params.arguments ?? params.args)) || &#x7b;&#x7d;&#96;. -/
def extractArgs (params : Option Json) : Json :=
  match params with
  | none => .obj []
  | some p =>
    if jsFalsy p then .obj []
    else jsOr (match jGetNullish (some p) "arguments" with
               | some v => some v
               | none => jGetNullish (some p) "args") (.obj [])

/-- `handleRpcSingle` of the api/mcp.js drop-in router (lines 739-766): serves
`tools/list`, dispatches `tools/call` (no missing-name branch: an absent name
falls through to "Tool not found: undefined"), and rejects unknown methods. -/
def handleRpcSingle (tools : List Tool) (r : NormReq) : Json :=
  if r.method = "tools/list" then
    rpcResult r.id (.obj [("tools", .arr (tools.map toolListEntry))])
  else if r.method = "tools/call" then
    let name := jGetOpt r.params "name"
    let args := extractArgs r.params
    match findTool tools name with
    | none => rpcError r.id (-32601) ("Tool not found: " ++ jsStringOpt name) none
    | some t =>
      match t.handler args with
      | .ok out => rpcResult r.id out
      | .error e => rpcError r.id (-32603) "Tool execution error" (some (.str (excMsg e)))
  else
    rpcError r.id (-32601) ("Unknown method: " ++ r.method) none

/-- Argument extraction of the amelloTools.js router (line 471):
`params?.arguments ?? params?.args ?? ` the empty object — no truthiness
squash, unlike the mcp.js variant. -/
def extractArgsB (params : Option Json) : Json :=
  match jGetNullish params "arguments" with
  | some v => v
  | none =>
    match jGetNullish params "args" with
    | some v => v
    | none => .obj []

/-- `handleRpcSingle` of the api/_lib/amelloTools.js drop-in router (lines
456-489): same as the mcp.js one except that `tools/call` first rejects a falsy
tool name with code -32602. -/
def handleRpcSingleB (tools : List Tool) (r : NormReq) : Json :=
  if r.method = "tools/list" then
    rpcResult r.id (.obj [("tools", .arr (tools.map toolListEntry))])
  else if r.method = "tools/call" then
    let name := jGetOpt r.params "name"
    let args := extractArgsB r.params
    if !jsTruthyOpt name then rpcError r.id (-32602) "Missing tool name in params" none
    else
      match findTool tools name with
      | none => rpcError r.id (-32601) ("Tool not found: " ++ jsStringOpt name) none
      | some t =>
        match t.handler args with
        | .ok out => rpcResult r.id out
        | .error e => rpcError r.id (-32603) "Tool execution error" (some (.str (excMsg e)))
  else
    rpcError r.id (-32601) ("Unknown method: " ++ r.method) none

/-- Whether `pre` is a leading run of `s`, character by character — the
JavaScript `s.startsWith(pre)` — on character lists so that terms reduce. -/
def leadsWithChars : List Char → List Char → Bool
  | _, [] => true
  | [], _ :: _ => false
  | c :: cs, d :: ds => c == d && leadsWithChars cs ds

/-- `s.startsWith(pre)` on strings. -/
def leadsWith (s pre : String) : Bool :=
  leadsWithChars s.data pre.data

/-- Substring scan behind `s.includes(pat)`. -/
def containsChars : List Char → List Char → Bool
  | [], pat => pat.isEmpty
  | c :: rest, pat => leadsWithChars (c :: rest) pat || containsChars rest pat

/-- Whether the last character of a string is `c`. -/
def lastCharIs (s : String) (c : Char) : Bool :=
  match s.data.getLast? with
  | some d => d == c
  | none => false

/-- The configured API base, parsed: `origin` is protocol plus host and
`pathname` the path component; the default `API_BASE`
"https://prod-api.amello.plusline.net/api/v1" has pathname "/api/v1". -/
structure UrlBase where
  origin : String
  pathname : String

/-- The default `API_BASE` of both routers (api/mcp.js line 375). -/
def defaultApiBase : UrlBase :=
  { origin := "https://prod-api.amello.plusline.net", pathname := "/api/v1" }

/-- Uppercase hexadecimal digit, as percent-encoding emits it. -/
def hexUpper (n : Nat) : Char :=
  if n < 10 then Char.ofNat (48 + n) else Char.ofNat (55 + n)

/-- Percent-encoding of one byte. -/
def pctByte (b : UInt8) : String :=
  String.mk [Char.ofNat 37, hexUpper (b.toNat / 16), hexUpper (b.toNat % 16)]

/-- The characters `encodeURIComponent` leaves intact. -/
def uriUnreserved (c : Char) : Bool :=
  c.isAlphanum || c = '-' || c = '_' || c = '.' || c = '!' || c = '~' ||
  c = '*' || c = Char.ofNat 39 || c = '(' || c = ')'

/-- JavaScript `encodeURIComponent`: unreserved characters pass through, all
others are percent-encoded byte by byte in UTF-8. -/
def encodeURIComponent (s : String) : String :=
  s.data.foldl (fun acc c =>
    acc ++ (if uriUnreserved c then String.singleton c
            else String.join (((String.singleton c).toUTF8.toList).map pctByte))) ""

/-- Scanner behind `applyPathParams` (api/mcp.js line 417): each occurrence of
a brace-delimited nonempty key is replaced by the percent-encoded string form
of the corresponding `pathParams` property; an unmatched or empty brace pair is
left as literal text, as the regex engine would. Fuel is the character count,
ample since every step consumes at least one character. -/
def applyPathParamsAux (ps : Json) : Nat → List Char → List Char
  | 0, cs => cs
  | _ + 1, [] => []
  | n + 1, c :: rest =>
    if c = Char.ofNat 123 then
      match rest.span (fun d => d ≠ Char.ofNat 125) with
      | (key, _ :: after) =>
        if key.isEmpty then c :: applyPathParamsAux ps n rest
        else (encodeURIComponent (jsStringOpt (jGet ps (String.mk key)))).data ++
          applyPathParamsAux ps n after
      | (_, []) => c :: applyPathParamsAux ps n rest
    else c :: applyPathParamsAux ps n rest

/-- `applyPathParams` (api/mcp.js lines 417-419); none of the registered routes
contains a brace, so on them it is the identity. -/
def applyPathParams (route : String) (pathParams : Json) : String :=
  String.mk (applyPathParamsAux pathParams route.data.length route.data)

/-- The directory of a URL path: everything up to and including the last slash,
the prefix against which a relative reference is resolved. -/
def dirOfPath (p : String) : String :=
  String.mk ((p.data.reverse.dropWhile (fun c => c ≠ '/')).reverse)

/-- Resolution `new URL(ref, base)` for a path reference without scheme, query
or fragment, as `callApi` in api/mcp.js uses it (line 421): a path-absolute
reference replaces the base's entire path — the WHATWG behaviour that drops a
base path such as /api/v1 — while a relative one resolves against the base
path's directory. -/
def newUrlResolve (base : UrlBase) (ref : String) : String :=
  if leadsWith ref "/" then base.origin ++ ref
  else base.origin ++ dirOfPath base.pathname ++ ref

/-- `buildUrl` of api/_lib/amelloTools.js (lines 113-126): origin plus the base
pathname stripped of a trailing slash plus the route forced to start with a
slash. Modelled on the branch where `API_BASE` parses as a URL, which the
default does; the catch branch only differs for an unparseable base. -/
def buildUrl (base : UrlBase) (route : String) : String :=
  let routePath := if leadsWith route "/" then route else "/" ++ route
  let basePath := if lastCharIs base.pathname '/' then String.mk base.pathname.data.dropLast
    else base.pathname
  base.origin ++ basePath ++ routePath

/-- Substring test, JavaScript `s.includes(pat)` for a nonempty pattern. -/
def strContains (s pat : String) : Bool :=
  containsChars s.data pat.data

/-- Setting a member of a JavaScript object (or of `URLSearchParams`): an
existing key keeps its position but takes the new value, a new key is appended. -/
def setMember {α : Type} (kvs : List (String × α)) (k : String) (v : α) : List (String × α) :=
  if kvs.any (fun kv => decide (kv.1 = k)) then
    kvs.map (fun kv => if kv.1 = k then (k, v) else kv)
  else kvs ++ [(k, v)]

/-- Object spread `...extra` onto `base`: members are set one by one, so a
later key overrides an earlier one's value. -/
def spreadMembers {α : Type} (base extra : List (String × α)) : List (String × α) :=
  extra.foldl (fun acc kv => setMember acc kv.1 kv.2) base

/-- The value an object holds at a key: the first member with that key (the
members of a built header object have unique keys). -/
def lookupMember {α : Type} : List (String × α) → String → Option α
  | [], _ => none
  | kv :: rest, k => if kv.1 = k then some kv.2 else lookupMember rest k

/-- `Object.entries(v)` and object-spread enumeration of own enumerable
properties: objects yield their members, arrays and strings their indexed
elements, primitives nothing. -/
def jsEntries : Json → List (String × Json)
  | .obj kvs => kvs
  | .arr xs => xs.enum.map (fun ix => (toString ix.1, ix.2))
  | .str s => s.data.enum.map (fun ic => (toString ic.1, Json.str (String.singleton ic.2)))
  | _ => []

/-- `bearerHeaders` (api/mcp.js lines 413-416): the `AMELLO_API_TOKEN`
environment value, when set and nonempty (truthy), contributes an
Authorization header. -/
def bearerHeaders (token : Option String) : List (String × Json) :=
  match token with
  | some t => if t = "" then [] else [("Authorization", Json.str ("Bearer " ++ t))]
  | none => []

/-- The outbound header object `callApi` builds (api/mcp.js lines 425-430, the
same construction as api/_lib/amelloTools.js lines 137-142): Accept and
Content-Type defaults, then the bearer headers, then the caller's
`args.headers` spread last. -/
def callApiHeaders (token : Option String) (argHeaders : Option Json) : List (String × Json) :=
  spreadMembers
    (spreadMembers
      [("Accept", Json.str "application/json"), ("Content-Type", Json.str "application/json")]
      (bearerHeaders token))
    (jsEntries (jsOr argHeaders (.obj [])))

/-- Lowercase hexadecimal digit, as `JSON.stringify` escapes control characters. -/
def hexLower (n : Nat) : Char :=
  if n < 10 then Char.ofNat (48 + n) else Char.ofNat (87 + n)

/-- String-content escaping of `JSON.stringify`. -/
def jsonEscapeChar (c : Char) : String :=
  if c = '"' then "\\\"" else if c = '\\' then "\\\\"
  else if c = '\n' then "\\n" else if c = '\r' then "\\r" else if c = '\t' then "\\t"
  else if c = Char.ofNat 8 then "\\b" else if c = Char.ofNat 12 then "\\f"
  else if c.toNat < 32 then
    "\\u00" ++ String.mk [hexLower (c.toNat / 16), hexLower (c.toNat % 16)]
  else String.singleton c

/-- Escape every character of a string for a JSON literal. -/
def jsonEscape (s : String) : String :=
  s.data.foldl (fun acc c => acc ++ jsonEscapeChar c) ""

mutual
/-- Compact `JSON.stringify` of a JSON value (members of the embedding never
hold `undefined`, which the builders already omit). -/
def jsonStringify : Json → String
  | .null => "null"
  | .bool b => cond b "true" "false"
  | .num n => toString n
  | .str s => "\"" ++ jsonEscape s ++ "\""
  | .arr xs => "[" ++ jsonStringifyArr xs ++ "]"
  | .obj kvs => "\x7b" ++ jsonStringifyObj kvs ++ "\x7d"

/-- Comma-joined serialization of array elements. -/
def jsonStringifyArr : List Json → String
  | [] => ""
  | [x] => jsonStringify x
  | x :: xs => jsonStringify x ++ "," ++ jsonStringifyArr xs

/-- Comma-joined serialization of object members. -/
def jsonStringifyObj : List (String × Json) → String
  | [] => ""
  | [(k, v)] => "\"" ++ jsonEscape k ++ "\":" ++ jsonStringify v
  | (k, v) :: kvs => "\"" ++ jsonEscape k ++ "\":" ++ jsonStringify v ++ "," ++ jsonStringifyObj kvs
end

/-- The `init` object `callApi` passes to `fetch`. -/
structure FetchInit where
  method : String
  headers : List (String × Json)
  body : Option String
deriving Inhabited

/-- The observable outcome of an awaited `fetch` call plus reading its body:
`ok`/`status`/`statusText`, the content-type header, the body text, and the
outcome `JSON.parse(text)` would have on that text. -/
structure FetchResp where
  ok : Bool
  status : Nat
  statusText : String
  contentType : String
  text : String
  parsed : Except JsErr Json

/-- The network oracle: what the awaited `fetch(url, init)` resolves to; a
`.error` outcome is a rejection — network failure, or the timeout signal
aborting the request. -/
def FetchOracle := String → FetchInit → Except JsErr FetchResp

/-- The argument triple a built-in tool handler forwards to `callApi`; absent
fields are `undefined`. -/
structure CallArgs where
  query : Option Json := none
  headers : Option Json := none
  body : Option Json := none
  pathParams : Option Json := none

/-- The URL string `callApi` requests: path resolution against the base via
`new URL`, then the query parameters set one by one (null and undefined values
skipped), serialized the way `URLSearchParams` does for the plain ASCII
keys and values the tools use. -/
def callApiUrl (base : UrlBase) (route : String) (args : CallArgs) : String :=
  let url := newUrlResolve base (applyPathParams route (jsOr args.pathParams (.obj [])))
  let qparams := (jsEntries (jsOr args.query (.obj []))).foldl
    (fun acc kv =>
      match kv.2 with
      | .null => acc
      | v => setMember acc kv.1 (jsString v)) []
  url ++ (if qparams.isEmpty then ""
          else "?" ++ String.intercalate "&"
            (qparams.map (fun kv => encodeURIComponent kv.1 ++ "=" ++ encodeURIComponent kv.2)))

/-- `callApi` of the api/mcp.js drop-in router (lines 420-449): build the URL
and headers, issue the request, throw on non-ok status with the body embedded,
parse JSON content-types (an empty body yielding the empty object), return raw
text otherwise. -/
def callApi (base : UrlBase) (token : Option String) (net : FetchOracle)
    (method : String) (route : String) (args : CallArgs) : Except JsErr Json :=
  let methodUp := String.mk ((if method = "" then "GET" else method).data.map Char.toUpper)
  let init : FetchInit :=
    { method := methodUp,
      headers := callApiHeaders token args.headers,
      body := if methodUp ≠ "GET" ∧ methodUp ≠ "HEAD" then
          match args.body with
          | some (.str s) => some s
          | some b => some (jsonStringify b)
          | none => none
        else none }
  match net (callApiUrl base route args) init with
  | .error e => .error e
  | .ok r =>
    if !r.ok then
      let m := "HTTP " ++ toString r.status ++ " " ++ r.statusText ++ " – " ++ r.text
      .error { message := m, asString := "Error: " ++ m }
    else if strContains r.contentType "application/json" then
      if r.text = "" then .ok (.obj []) else r.parsed
    else .ok (.str r.text)

/-- Success output helper `okText` (api/mcp.js lines 464-466): a defined `data`
adds `structuredContent`. -/
def okText (text : String) (data : Option Json) : Json :=
  .obj ([("content", .arr [.obj [("type", .str "text"), ("text", .str text)]])] ++
    (match data with
     | some d => [("structuredContent", d)]
     | none => []))

/-- Failure output helper `errText` (api/mcp.js line 467): a tool-level error
result, `isError` true. -/
def errText (message : String) : Json :=
  .obj [("content", .arr [.obj [("type", .str "text"), ("text", .str message)]]),
    ("isError", .bool true)]

/-- Schema fragment for the per-tool `headers` argument. -/
def schemaHeaders : Json :=
  .obj [("type", .str "object"), ("additionalProperties", .bool true)]

/-- Schema fragment for the `locale` enumeration. -/
def schemaLocale : Json :=
  .obj [("type", .str "string"), ("enum", .arr [.str "de_DE", .str "en_DE"])]

/-- Schema fragment for a plain string property. -/
def schemaString : Json := .obj [("type", .str "string")]

/-- Schema fragment for `roomConfigurations`. -/
def schemaRoomConfigs : Json :=
  .obj [("type", .str "array"), ("items", .obj [("type", .str "object")])]

/-- Output schema fragment: an object with an object-typed `data` property. -/
def schemaOutData : Json :=
  .obj [("type", .str "object"),
    ("properties", .obj [("data", .obj [("type", .str "object")])])]

/-- Output schema fragment: an array of objects. -/
def schemaOutArray : Json :=
  .obj [("type", .str "array"), ("items", .obj [("type", .str "object")])]

/-- The `FindHotels OK (<n> results)` text (api/mcp.js lines 577-578): `n` is the
length of `data.data.results` when that is an array, else 0. -/
def findHotelsOkText (data : Json) : String :=
  let n := match jGetOpt (jGet data "data") "results" with
    | some (.arr xs) => xs.length
    | _ => 0
  "FindHotels OK (" ++ toString n ++ " results)"

/-- The tool registry of the api/mcp.js drop-in router: `makeToolRegistry()`
(lines 452-461) filled by `registerAmelloTools` (lines 470-731), in
registration order. Every registration passes the registry's validation (each
name is a nonempty string, each handler a function), so construction never
throws and the registry is exactly this list. The handlers forward to `callApi`
with the configured base, token and network oracle and catch their own
exceptions into `errText` results. -/
def amelloTools (base : UrlBase) (token : Option String) (net : FetchOracle) : List Tool :=
  [ { name := "ping",
      description := "Health check",
      inputSchema := .obj [("type", .str "object"), ("additionalProperties", .bool false),
        ("properties", .obj [])],
      outputSchema := .obj [("type", .str "object"), ("additionalProperties", .bool false),
        ("properties", .obj [("ok", .obj [("type", .str "boolean")]),
          ("message", .obj [("type", .str "string")])]),
        ("required", .arr [.str "ok", .str "message"])],
      handler := fun _ => .ok (.obj [
        ("content", .arr [.obj [("type", .str "text"), ("text", .str "pong")]]),
        ("structuredContent", .obj [("ok", .bool true), ("message", .str "pong")])]) },
    { name := "booking_search",
      description := "GET /booking/search — Find booking by bookingReferenceNumber + email + locale.",
      inputSchema := .obj [("type", .str "object"), ("required", .arr [.str "query"]),
        ("additionalProperties", .bool false),
        ("properties", .obj [
          ("headers", schemaHeaders),
          ("query", .obj [("type", .str "object"), ("additionalProperties", .bool false),
            ("required", .arr [.str "bookingReferenceNumber", .str "email", .str "locale"]),
            ("properties", .obj [
              ("bookingReferenceNumber", .obj [("type", .str "string"),
                ("description", .str "Itinerary/booking reference, e.g. 45666CK000940")]),
              ("email", .obj [("type", .str "string"),
                ("description", .str "Booking contact email")]),
              ("locale", .obj [("type", .str "string"),
                ("enum", .arr [.str "de_DE", .str "en_DE"]),
                ("description", .str "ISO-639 + ISO-3166, underscore-separated")])])])])],
      outputSchema := schemaOutData,
      handler := fun args =>
        match callApi base token net "GET" "/booking/search"
          { headers := jGet args "headers", query := jGet args "query" } with
        | .ok data => .ok (okText "BookingSearch OK" (some data))
        | .error e => .ok (errText ("booking_search failed: " ++ excMsg e)) },
    { name := "booking_cancel",
      description := "POST /booking/cancel — Cancel booking by itineraryNumber + bookingNumber + email + locale.",
      inputSchema := .obj [("type", .str "object"), ("required", .arr [.str "body"]),
        ("additionalProperties", .bool false),
        ("properties", .obj [
          ("headers", schemaHeaders),
          ("body", .obj [("type", .str "object"), ("additionalProperties", .bool false),
            ("required", .arr [.str "itineraryNumber", .str "bookingNumber", .str "email", .str "locale"]),
            ("properties", .obj [
              ("itineraryNumber", schemaString),
              ("bookingNumber", schemaString),
              ("email", schemaString),
              ("locale", schemaLocale)])])])],
      outputSchema := .obj [("type", .str "object"),
        ("properties", .obj [
          ("itineraryNumber", schemaString),
          ("bookingNumber", schemaString),
          ("email", schemaString),
          ("status", .obj [("type", .str "string"),
            ("enum", .arr [.str "CNCLD", .str "ERROR", .str "OK"])])])],
      handler := fun args =>
        match callApi base token net "POST" "/booking/cancel"
          { headers := jGet args "headers", body := jGet args "body" } with
        | .ok data => .ok (okText "BookingCancel OK" (some data))
        | .error e => .ok (errText ("booking_cancel failed: " ++ excMsg e)) },
    { name := "find_hotels",
      description := "POST /find-hotels — Find hotels by destination, dates, currency, roomConfigurations, locale.",
      inputSchema := .obj [("type", .str "object"), ("required", .arr [.str "body"]),
        ("additionalProperties", .bool false),
        ("properties", .obj [
          ("headers", schemaHeaders),
          ("body", .obj [("type", .str "object"),
            ("required", .arr [.str "destination", .str "departureDate", .str "returnDate",
              .str "currency", .str "roomConfigurations", .str "locale"]),
            ("additionalProperties", .bool true),
            ("properties", .obj [
              ("destination", .obj [("type", .str "object"),
                ("required", .arr [.str "id", .str "type"]),
                ("properties", .obj [
                  ("id", schemaString),
                  ("type", .obj [("type", .str "string"),
                    ("enum", .arr [.str "country-code", .str "city-code", .str "region-code"])]),
                  ("label", schemaString)])]),
              ("hotelId", schemaString),
              ("departureDate", schemaString),
              ("returnDate", schemaString),
              ("currency", schemaString),
              ("roomConfigurations", schemaRoomConfigs),
              ("locale", schemaLocale)])])])],
      outputSchema := schemaOutData,
      handler := fun args =>
        match callApi base token net "POST" "/find-hotels"
          { headers := jGet args "headers", body := jGet args "body" } with
        | .ok data => .ok (okText (findHotelsOkText data) (some data))
        | .error e => .ok (errText ("find_hotels failed: " ++ excMsg e)) },
    { name := "currencies_list",
      description := "GET /currencies — List supported currencies (requires locale).",
      inputSchema := .obj [("type", .str "object"), ("required", .arr [.str "query"]),
        ("additionalProperties", .bool false),
        ("properties", .obj [
          ("headers", schemaHeaders),
          ("query", .obj [("type", .str "object"), ("required", .arr [.str "locale"]),
            ("additionalProperties", .bool false),
            ("properties", .obj [("locale", schemaLocale)])])])],
      outputSchema := schemaOutArray,
      handler := fun args =>
        match callApi base token net "GET" "/currencies"
          { headers := jGet args "headers", query := jGet args "query" } with
        | .ok data => .ok (okText "Currencies OK" (some data))
        | .error e => .ok (errText ("currencies_list failed: " ++ excMsg e)) },
    { name := "hotels_list",
      description := "GET /hotels — Paginated hotel list (requires locale; optional page).",
      inputSchema := .obj [("type", .str "object"), ("required", .arr [.str "query"]),
        ("additionalProperties", .bool false),
        ("properties", .obj [
          ("headers", schemaHeaders),
          ("query", .obj [("type", .str "object"), ("required", .arr [.str "locale"]),
            ("additionalProperties", .bool false),
            ("properties", .obj [
              ("locale", schemaLocale),
              ("page", .obj [("type", .str "integer"), ("minimum", .num 1)])])])])],
      outputSchema := schemaOutArray,
      handler := fun args =>
        match callApi base token net "GET" "/hotels"
          { headers := jGet args "headers", query := jGet args "query" } with
        | .ok data => .ok (okText "Hotels OK" (some data))
        | .error e => .ok (errText ("hotels_list failed: " ++ excMsg e)) },
    { name := "hotel_offers",
      description := "POST /hotel/offer — Hotel offers for multiple rooms (send empty roomConfigurations to get proposal).",
      inputSchema := .obj [("type", .str "object"), ("required", .arr [.str "body"]),
        ("additionalProperties", .bool false),
        ("properties", .obj [
          ("headers", schemaHeaders),
          ("body", .obj [("type", .str "object"),
            ("required", .arr [.str "hotelId", .str "departureDate", .str "returnDate",
              .str "currency", .str "roomConfigurations", .str "locale"]),
            ("additionalProperties", .bool true),
            ("properties", .obj [
              ("hotelId", schemaString),
              ("departureDate", schemaString),
              ("returnDate", schemaString),
              ("currency", schemaString),
              ("roomConfigurations", schemaRoomConfigs),
              ("locale", schemaLocale)])])])],
      outputSchema := schemaOutData,
      handler := fun args =>
        match callApi base token net "POST" "/hotel/offer"
          { headers := jGet args "headers", body := jGet args "body" } with
        | .ok data => .ok (okText "HotelOffers OK" (some data))
        | .error e => .ok (errText ("hotel_offers failed: " ++ excMsg e)) },
    { name := "hotel_reference",
      description := "GET /hotel-reference — Hotel codes, names, rooms.",
      inputSchema := .obj [("type", .str "object"), ("required", .arr [.str "query"]),
        ("additionalProperties", .bool false),
        ("properties", .obj [
          ("headers", schemaHeaders),
          ("query", .obj [("type", .str "object"), ("required", .arr [.str "locale"]),
            ("additionalProperties", .bool false),
            ("properties", .obj [("locale", schemaLocale)])])])],
      outputSchema := schemaOutArray,
      handler := fun args =>
        match callApi base token net "GET" "/hotel-reference"
          { headers := jGet args "headers", query := jGet args "query" } with
        | .ok data => .ok (okText "HotelReference OK" (some data))
        | .error e => .ok (errText ("hotel_reference failed: " ++ excMsg e)) },
    { name := "crapi_hotel_contact",
      description := "GET /crapi/hotel/contact — All hotel contact info.",
      inputSchema := .obj [("type", .str "object"), ("required", .arr [.str "query"]),
        ("additionalProperties", .bool false),
        ("properties", .obj [
          ("headers", schemaHeaders),
          ("query", .obj [("type", .str "object"), ("required", .arr [.str "locale"]),
            ("additionalProperties", .bool false),
            ("properties", .obj [("locale", schemaLocale)])])])],
      outputSchema := .obj [("type", .str "object"),
        ("properties", .obj [("code", schemaString), ("contact", .obj [("type", .str "object")])])],
      handler := fun args =>
        match callApi base token net "GET" "/crapi/hotel/contact"
          { headers := jGet args "headers", query := jGet args "query" } with
        | .ok data => .ok (okText "CRAPI HotelContact OK" (some data))
        | .error e => .ok (errText ("crapi_hotel_contact failed: " ++ excMsg e)) },
    { name := "package_offer",
      description := "POST /offer/package — Create packaged offer.",
      inputSchema := .obj [("type", .str "object"), ("required", .arr [.str "body"]),
        ("additionalProperties", .bool false),
        ("properties", .obj [
          ("headers", schemaHeaders),
          ("body", .obj [("type", .str "object"),
            ("required", .arr [.str "hotelId", .str "departureDate", .str "returnDate",
              .str "currency", .str "roomConfigurations", .str "locale"]),
            ("additionalProperties", .bool true),
            ("properties", .obj [
              ("hotelId", schemaString),
              ("departureDate", schemaString),
              ("returnDate", schemaString),
              ("currency", schemaString),
              ("roomConfigurations", schemaRoomConfigs),
              ("locale", schemaLocale)])])])],
      outputSchema := .obj [("type", .str "object"),
        ("properties", .obj [("offerId", schemaString)]),
        ("required", .arr [.str "offerId"])],
      handler := fun args =>
        match callApi base token net "POST" "/offer/package"
          { headers := jGet args "headers", body := jGet args "body" } with
        | .ok data => .ok (okText "PackageOffer OK" (some data))
        | .error e => .ok (errText ("package_offer failed: " ++ excMsg e)) } ]

/-- An HTTP request as the router handlers see it: the method, the Accept
header (string-coerced), and the outcome of reading and JSON-parsing the body
(`getJsonBody`): `.error` carries the `err` field, `.ok` the parsed value. -/
structure RpcHttpReq where
  method : String
  accept : String
  body : Except String Json

/-- A response: status code and optional JSON body (the 204 preflight reply has
none). Response headers (CORS) are not modelled; no claim concerns them. -/
structure HttpResp where
  status : Nat
  body : Option Json
deriving Inhabited, Repr

/-- Try-block of the api/mcp.js module handler (lines 770-804): preflight 204,
GET readiness probe, 405 for other non-POST methods, 400 for unparsed or falsy
bodies, 400 for a batch with any shape-invalid element, and otherwise the
routed result — a batch answers with an array exactly when it has two or more
elements, a single request (or a one-element batch) with the bare response. -/
def mcpHandlerTry (tools : List Tool) (req : RpcHttpReq) : HttpResp :=
  if req.method = "OPTIONS" ∨ req.method = "HEAD" then ⟨204, none⟩
  else if req.method = "GET" ∧ ¬(strContains req.accept "text/event-stream" = true) then
    ⟨200, some (.obj [("ok", .bool true),
      ("message", .str "MCP endpoint ready. POST JSON-RPC to this URL.")])⟩
  else if req.method ≠ "POST" then
    ⟨405, some (rpcError .null (-32601) "Method not allowed" none)⟩
  else
    match req.body with
    | .error e =>
      ⟨400, some (rpcError .null (-32700) "Parse error"
        (some (.str (if e = "" then "Invalid JSON" else e))))⟩
    | .ok j =>
      if jsFalsy j then
        ⟨400, some (rpcError .null (-32700) "Parse error" (some (.str "Invalid JSON")))⟩
      else
        let items := match j with
          | .arr xs => xs.map normalizeReq
          | _ => [normalizeReq j]
        if items.any Option.isNone then
          ⟨400, some (rpcError .null (-32600) "Invalid Request" none)⟩
        else
          match items.reduceOption with
          | [r] => ⟨200, some (handleRpcSingle tools r)⟩
          | rs => ⟨200, some (.arr (rs.map (handleRpcSingle tools)))⟩

/-- The api/mcp.js module handler (lines 769-809). The `exc` parameter injects
an unexpected exception thrown inside the try block before the response is
written — in JavaScript any statement may throw (a response-write failure, a
platform fault); `some e` runs the catch branch of lines 805-808, which
answers 500 with a plain `error` object, not a JSON-RPC envelope. -/
def mcpHandler (tools : List Tool) (req : RpcHttpReq) (exc : Option JsErr) : HttpResp :=
  match exc with
  | some e =>
    ⟨500, some (.obj [("error", .obj [("code", .str "500"),
      ("message", .str "Top-level handler crash"), ("detail", .str e.asString)])])⟩
  | none => mcpHandlerTry tools req

/-- Try-block of the api/_lib/amelloTools.js module handler (lines 493-523):
preflight 204, GET readiness manifest listing the tools, 405 for other
non-POST methods, 400 on a body-read error (the `err` truthiness test; an
empty error string would fall through to shape validation), 400 for a
shape-invalid request, else the routed result — no batch support. -/
def amelloHandlerTry (tools : List Tool) (req : RpcHttpReq) : HttpResp :=
  if req.method = "OPTIONS" ∨ req.method = "HEAD" then ⟨204, none⟩
  else if req.method = "GET" then
    ⟨200, some (.obj [("ok", .bool true),
      ("message", .str "MCP endpoint ready. POST JSON-RPC to this URL, or GET with Accept: text/event-stream for sessions."),
      ("tools", .arr (tools.map (fun t =>
        .obj [("name", .str t.name), ("description", .str t.description)])))])⟩
  else if req.method ≠ "POST" then
    ⟨405, some (rpcError .null (-32601) "Method not allowed" none)⟩
  else
    match req.body with
    | .error e =>
      if e ≠ "" then ⟨400, some (rpcError .null (-32700) "Parse error" (some (.str e)))⟩
      else ⟨400, some (rpcError .null (-32600) "Invalid Request" none)⟩
    | .ok j =>
      match normalizeReq j with
      | none => ⟨400, some (rpcError .null (-32600) "Invalid Request" none)⟩
      | some r => ⟨200, some (handleRpcSingleB tools r)⟩

/-- The api/_lib/amelloTools.js module handler (lines 492-529), with the same
exception injection as `mcpHandler`: its catch branch (lines 524-528) answers
500 with the JSON-RPC envelope `rpcError(null, -32603, "Internal error",
message)`. The registry the source reads from module scope is passed as the
`tools` parameter. -/
def amelloHandler (tools : List Tool) (req : RpcHttpReq) (exc : Option JsErr) : HttpResp :=
  match exc with
  | some e => ⟨500, some (rpcError .null (-32603) "Internal error" (some (.str (excMsg e))))⟩
  | none => amelloHandlerTry tools req

/-- A TypeError raised by the runtime (reading a property of null, iterating a
non-iterable); the embedding does not reproduce the host's message text. -/
def typeError : JsErr := { message := "TypeError", asString := "TypeError" }

/-- How a `for (const c of calls)` over a truthy-length `tool_calls` value
behaves: skipped when the value or its length is falsy, iterated for arrays
and nonempty strings (character-wise), a thrown TypeError for a non-iterable
object carrying a truthy `length`. -/
inductive CallsCase where
  | skip
  | iterate (cs : List Json)
  | badIterable

/-- Classify `msg.tool_calls` the way both chat handlers test and iterate it. -/
def callsOf (v : Option Json) : CallsCase :=
  match v with
  | Option.none => .skip
  | some (.arr []) => .skip
  | some (.arr cs) => .iterate cs
  | some (.str s) =>
    if s = "" then .skip
    else .iterate (s.data.map (fun c => Json.str (String.singleton c)))
  | some (.obj kvs) => if jsTruthyOpt (kvs.lookup "length") then .badIterable else .skip
  | some _ => .skip

/-- `toOpenAITools` of api/chat.js (lines 49-59): each catalog entry becomes a
function tool whose `parameters` is the tool's `inputSchema` passed through
unmodified (defaulting only when falsy) — nothing is stripped. -/
def toOpenAIToolsJs (mcpTools : List Json) : List Json :=
  mcpTools.map (fun t => .obj [("type", .str "function"),
    ("function", .obj (
      (match jGet t "name" with
       | some v => [("name", v)]
       | none => []) ++
      [("description", jsOr (jGet t "description") (.str "")),
       ("parameters", jsOr (jGet t "inputSchema") (.obj [("type", .str "object")]))]))])

/-- `toOpenAITools` of api/chat.ts (lines 39-47): `parameters` is rebuilt from
the schema's `properties`/`required`, and a truthy `headers` property is
deleted from the model-visible properties. -/
def toOpenAIToolsTs (mcpTools : List Json) : List Json :=
  mcpTools.map (fun t =>
    let params : Json :=
      match jGet t "inputSchema" with
      | some (.obj kvs) =>
        .obj [("type", .str "object"),
          ("properties", (match kvs.lookup "properties" with
            | some .null => .obj []
            | some v => v
            | none => .obj [])),
          ("required", (match kvs.lookup "required" with
            | some .null => .arr []
            | some v => v
            | none => .arr []))]
      | some (.arr _) =>
        .obj [("type", .str "object"), ("properties", .obj []), ("required", .arr [])]
      | _ => .obj [("type", .str "object"), ("properties", .obj [])]
    let params2 : Json :=
      match jGet params "properties" with
      | some (.obj pkvs) =>
        if jsTruthyOpt (pkvs.lookup "headers") then
          .obj (setMember (match params with | .obj mkvs => mkvs | _ => []) "properties"
            (.obj (pkvs.filter (fun kv => kv.1 ≠ "headers"))))
        else params
      | _ => params
    .obj [("type", .str "function"),
      ("function", .obj (
        (match jGet t "name" with
         | some v => [("name", v)]
         | none => []) ++
        [("description", (jGetNullish (some t) "description").getD (.str "")),
         ("parameters", params2)]))])

/-- The effect oracles of the api/chat.js handler: the outcome of the awaited
`mcpListTools` (its `.ok` is `json.result.tools || []`, its `.error` the value
it throws), of `callOpenAI` followed by the `ai?.choices?.[0]?.message`
extraction (`.ok none` = absent message), of `mcpCallTool` (its `.ok` is
`json.result`, possibly undefined), and of `JSON.parse` on tool-call argument
strings. -/
structure ChatJsOracles where
  listTools : Except JsErr (List Json)
  llm : List Json → List Json → Except JsErr (Option Json)
  callTool : Option Json → Json → Except JsErr (Option Json)
  parseJson : String → Except JsErr Json

/-- The assistant message api/chat.js pushes (line 105): content defaulted when
falsy, `tool_calls` carried over when defined. -/
def chatJsAssistantMsg (m : Json) : Json :=
  .obj ([("role", .str "assistant"), ("content", jsOr (jGet m "content") (.str ""))] ++
    (match jGet m "tool_calls" with
     | some v => [("tool_calls", v)]
     | none => []))

/-- The tool message api/chat.js pushes (lines 124-129): `tool_call_id` only
when `c.id` is truthy, `name` when `c.function?.name` is defined, `content`
the compact serialization of the tool result when that is defined. -/
def chatJsToolMsg (c : Json) (toolResult : Option Json) : Json :=
  .obj ([("role", .str "tool")] ++
    (if jsTruthyOpt (jGet c "id") then [("tool_call_id", (jGet c "id").getD .null)] else []) ++
    (match jGetOpt (jGet c "function") "name" with
     | some v => [("name", v)]
     | none => []) ++
    (match toolResult with
     | some r => [("content", .str (jsonStringify r))]
     | none => []))

/-- The tool-call execution loop of api/chat.js (lines 114-130): parse the
call's JSON argument string when truthy (a parse failure propagates — this
variant does not guard `JSON.parse`), invoke `mcpCallTool` with the arguments
defaulted when falsy, catch its failure into an `isError` result, and append
the tool message. -/
def chatJsRunCalls (oc : ChatJsOracles) : List Json → List Json → Except JsErr (List Json)
  | [], msgs => .ok msgs
  | c :: cs, msgs =>
    let fnArgs := jGetOpt (jGet c "function") "arguments"
    match (if jsTruthyOpt fnArgs then oc.parseJson (jsString (fnArgs.getD .null))
           else .ok (.obj [])) with
    | .error e => .error e
    | .ok targs =>
      let tname := jGetOpt (jGet c "function") "name"
      let toolResult : Option Json :=
        match oc.callTool tname (if jsFalsy targs then .obj [] else targs) with
        | .ok r => r
        | .error e => some (.obj [
            ("content", .arr [.obj [("type", .str "text"),
              ("text", .str ("Tool error: " ++ e.message))]]),
            ("isError", .bool true)])
      chatJsRunCalls oc cs (msgs ++ [chatJsToolMsg c toolResult])

/-- The bounded tool loop of api/chat.js (lines 99-131), instrumented with the
number of completion calls it makes: fuel 0 is the loop running out, answered
by the post-loop line 133; each round makes exactly one completion call and
either breaks on a falsy message, returns the final reply when there are no
tool calls, or executes the calls and recurses. The second component carries
the transcript and reply of the 200 response, or the thrown value. -/
def chatJsLoop (oc : ChatJsOracles) (oaTools : List Json) :
    Nat → List Json → Nat × Except JsErr (List Json × Json)
  | 0, msgs => (0, .ok (msgs, .str "(stopped after 4 tool iterations)"))
  | n + 1, msgs =>
    match oc.llm oaTools msgs with
    | .error e => (1, .error e)
    | .ok Option.none => (1, .ok (msgs, .str "(stopped after 4 tool iterations)"))
    | .ok (some m) =>
      if jsFalsy m then (1, .ok (msgs, .str "(stopped after 4 tool iterations)"))
      else
        let msgs2 := msgs ++ [chatJsAssistantMsg m]
        match callsOf (jGet m "tool_calls") with
        | .skip => (1, .ok (msgs2, jsOr (jGet m "content") (.str "")))
        | .badIterable => (1, .error typeError)
        | .iterate cs =>
          match chatJsRunCalls oc cs msgs2 with
          | .error e => (1, .error e)
          | .ok msgs3 =>
            let pr := chatJsLoop oc oaTools n msgs3
            (pr.1 + 1, pr.2)

/-- An HTTP request as the chat handlers see it. -/
structure ChatHttpReq where
  method : String
  body : Except String Json

/-- A chat response, instrumented with the number of completion calls the
handling performed. -/
structure ChatResp where
  status : Nat
  body : Option Json
  passes : Nat
deriving Inhabited, Repr

/-- The response the chat.js handler assembles from the loop outcome: a 200
reply object for a normal return (lines 110 and 133), the top-level catch's
500 error object (line 136) for a thrown value; the instrumented pass count is
carried through. -/
def chatJsFinish (pr : Nat × Except JsErr (List Json × Json)) : ChatResp :=
  match pr with
  | (p, .ok (msgs, reply)) =>
    ⟨200, some (.obj [("messages", .arr msgs), ("reply", reply)]), p⟩
  | (p, .error e) => ⟨500, some (.obj [("error", .str (excMsg e))]), p⟩

/-- The api/chat.js module handler (lines 80-138): preflight ends bare (default
status 200), non-POST answers 405, an unreadable or falsy body 400; the tool
catalog fetch is not guarded, so its failure propagates to the top-level catch
and answers 500; otherwise the bounded loop runs with fuel 4 and its outcome
is a 200 reply or a 500 from the catch. -/
def chatJsHandler (oc : ChatJsOracles) (req : ChatHttpReq) : ChatResp :=
  if req.method = "OPTIONS" then ⟨200, Option.none, 0⟩
  else if req.method ≠ "POST" then ⟨405, some (.obj [("error", .str "Use POST")]), 0⟩
  else
    match req.body with
    | .error e =>
      ⟨400, some (.obj [("error", .str (if e = "" then "Invalid JSON" else e))]), 0⟩
    | .ok j =>
      if jsFalsy j then ⟨400, some (.obj [("error", .str "Invalid JSON")]), 0⟩
      else
        let sys := jsOr (jGet j "system")
          (.str "You are a helpful assistant. Use available tools when helpful.")
        let userMessages := match jGet j "messages" with
          | some (.arr xs) => xs
          | _ => []
        match oc.listTools with
        | .error e => ⟨500, some (.obj [("error", .str (excMsg e))]), 0⟩
        | .ok mcpTools =>
          let oaTools := toOpenAIToolsJs mcpTools
          let msgs0 := Json.obj [("role", .str "system"), ("content", sys)] :: userMessages
          chatJsFinish (chatJsLoop oc oaTools 4 msgs0)

mutual
/-- `JSON.stringify(v, null, 2)`: two-space pretty-printing, the form api/chat.ts
uses for tool result content; `ind` is the indentation of the enclosing value. -/
def jsonStringify2 : String → Json → String
  | _, .null => "null"
  | _, .bool b => cond b "true" "false"
  | _, .num n => toString n
  | _, .str s => "\"" ++ jsonEscape s ++ "\""
  | _, .arr [] => "[]"
  | ind, .arr xs => "[\n" ++ jsonStringify2Arr (ind ++ "  ") xs ++ "\n" ++ ind ++ "]"
  | _, .obj [] => "\x7b\x7d"
  | ind, .obj kvs => "\x7b\n" ++ jsonStringify2Obj (ind ++ "  ") kvs ++ "\n" ++ ind ++ "\x7d"

/-- Pretty-printed array elements, one per line. -/
def jsonStringify2Arr : String → List Json → String
  | _, [] => ""
  | ind, [x] => ind ++ jsonStringify2 ind x
  | ind, x :: xs => ind ++ jsonStringify2 ind x ++ ",\n" ++ jsonStringify2Arr ind xs

/-- Pretty-printed object members, one per line. -/
def jsonStringify2Obj : String → List (String × Json) → String
  | _, [] => ""
  | ind, [(k, v)] => ind ++ "\"" ++ jsonEscape k ++ "\": " ++ jsonStringify2 ind v
  | ind, (k, v) :: kvs =>
    ind ++ "\"" ++ jsonEscape k ++ "\": " ++ jsonStringify2 ind v ++ ",\n" ++
      jsonStringify2Obj ind kvs
end

/-- The effect oracles of the api/chat.ts handler: the outcome of the awaited
&#96;rpc("tools/list")&#96; (`.ok` is the envelope's `result`, possibly undefined;
`.error` what `rpc` throws on network failure, non-ok status or an RPC error),
of a completion call (given the tools argument, `undefined` modelled as `none`,
and the transcript; `.ok none` = `choices[0].message` absent, whose subsequent
property reads throw), of &#96;rpc("tools/call", ...)&#96;, and of `JSON.parse`. -/
structure ChatTsOracles where
  rpcList : Except JsErr (Option Json)
  llm : Option (List Json) → List Json → Except JsErr (Option Json)
  rpcToolCall : Option Json → Json → Except JsErr (Option Json)
  parseJson : String → Except JsErr Json

/-- The per-call execution of api/chat.ts (lines 88-98): `call.function.name`
is read unguarded (a nullish `function` throws), the argument parse failure is
tolerated into the empty object, the router call's result is serialized
pretty-printed (preferring `structuredContent`), and a router failure becomes
the "Tool call failed" tool message. Produces the `toolResults` list. -/
def chatTsRunCalls (oc : ChatTsOracles) : List Json → Except JsErr (List Json)
  | [] => .ok []
  | c :: cs =>
    match jGet c "function" with
    | Option.none => .error typeError
    | some .null => .error typeError
    | some f =>
      let name := jGet f "name"
      let fnArgs := jGet f "arguments"
      let args : Json :=
        if jsTruthyOpt fnArgs then
          match oc.parseJson (jsString (fnArgs.getD .null)) with
          | .ok j => j
          | .error _ => .obj []
        else .obj []
      let idMember := match jGet c "id" with
        | some v => [("tool_call_id", v)]
        | none => []
      let nameMember := match name with
        | some v => [("name", v)]
        | none => []
      let msg : Json :=
        match oc.rpcToolCall name args with
        | .ok r =>
          let inner : Option Json :=
            r.map (fun rv => (jGetNullish (some rv) "structuredContent").getD rv)
          .obj (idMember ++ [("role", .str "tool")] ++ nameMember ++
            (match inner with
             | some v => [("content", .str (jsonStringify2 "" v))]
             | none => []))
        | .error e =>
          .obj (idMember ++ [("role", .str "tool")] ++ nameMember ++
            [("content", .str ("Tool call failed: " ++ excMsg e))])
      match chatTsRunCalls oc cs with
      | .ok rest => .ok (msg :: rest)
      | .error e => .error e

/-- The api/chat.ts request: `req.body` is platform-parsed; `none` is undefined. -/
structure ChatTsReq where
  method : String
  body : Option Json

/-- The api/chat.ts default system message. -/
def chatTsSystemMsg : Json :=
  .obj [("role", .str "system"),
    ("content", .str "You can call tools via MCP when available. Be concise and precise.")]

/-- The api/chat.ts module handler (lines 49-117): 405 for non-POST, 400 for a
missing or non-string or empty `message`; inside the try, the tools/list
fetch failure is caught into an empty tool set, the first completion runs with
the tools when any, and a second completion runs only when tools were
advertised and the first message carried tool calls; every exception inside
the try answers 500 with the error message. Instrumented with the number of
completion calls. -/
def chatTsHandler (oc : ChatTsOracles) (req : ChatTsReq) : ChatResp :=
  if req.method ≠ "POST" then ⟨405, some (.obj [("error", .str "POST only")]), 0⟩
  else
    let bodyJ : Json := match req.body with
      | some .null => .obj []
      | some v => v
      | Option.none => .obj []
    match jGet bodyJ "message" with
    | some (.str s) =>
      if s = "" then ⟨400, some (.obj [("error", .str "Message is required")]), 0⟩
      else
        let histRes : Except JsErr (List Json) := match jGet bodyJ "history" with
          | Option.none => .ok []
          | some (.arr xs) => .ok xs
          | some (.str hs) => .ok (hs.data.map (fun c => Json.str (String.singleton c)))
          | some _ => .error typeError
        let oaTools : List Json := match oc.rpcList with
          | .ok listR =>
            toOpenAIToolsTs (match jGetOpt listR "tools" with
              | some (.arr ts) => ts
              | _ => [])
          | .error _ => []
        match histRes with
        | .error e => ⟨500, some (.obj [("error", .str (excMsg e))]), 0⟩
        | .ok hist =>
          let userMsg : Json := .obj [("role", .str "user"), ("content", .str s)]
          let msgs1 := chatTsSystemMsg :: hist ++ [userMsg]
          let toolsArg := if oaTools.isEmpty then Option.none else some oaTools
          match oc.llm toolsArg msgs1 with
          | .error e => ⟨500, some (.obj [("error", .str (excMsg e))]), 1⟩
          | .ok Option.none => ⟨500, some (.obj [("error", .str (excMsg typeError))]), 1⟩
          | .ok (some .null) => ⟨500, some (.obj [("error", .str (excMsg typeError))]), 1⟩
          | .ok (some m) =>
            match (if oaTools.isEmpty then CallsCase.skip else callsOf (jGet m "tool_calls")) with
            | .badIterable => ⟨500, some (.obj [("error", .str (excMsg typeError))]), 1⟩
            | .skip =>
              ⟨200, some (.obj ((match jGet m "content" with
                | some v => [("reply", v)]
                | none => []) ++ [("raw", m)])), 1⟩
            | .iterate cs =>
              match chatTsRunCalls oc cs with
              | .error e => ⟨500, some (.obj [("error", .str (excMsg e))]), 1⟩
              | .ok toolResults =>
                let msgs2 := chatTsSystemMsg :: hist ++ [userMsg, m] ++ toolResults
                match oc.llm Option.none msgs2 with
                | .error e => ⟨500, some (.obj [("error", .str (excMsg e))]), 2⟩
                | .ok Option.none => ⟨500, some (.obj [("error", .str (excMsg typeError))]), 2⟩
                | .ok (some .null) => ⟨500, some (.obj [("error", .str (excMsg typeError))]), 2⟩
                | .ok (some m2) =>
                  ⟨200, some (.obj ((match jGet m2 "content" with
                    | some v => [("reply", v)]
                    | none => []) ++ [("raw", m2)])), 2⟩
    | _ => ⟨400, some (.obj [("error", .str "Message is required")]), 0⟩

/-- The `error.code` member of a response envelope, when integral. -/
def errorCodeOf (j : Json) : Option Int :=
  match jGetOpt (jGet j "error") "code" with
  | some (.num n) => some n
  | _ => none

/-- Whether a JSON value carries a `jsonrpc` member, distinguishing a JSON-RPC
envelope from a plain error object. -/
def isRpcEnvelope (j : Json) : Bool :=
  (jGet j "jsonrpc").isSome

/-- Whether a JSON value is an array. -/
def isJsonArray : Json → Bool
  | .arr _ => true
  | _ => false

/-- The `function.parameters` member of a translated function tool entry. -/
def fnParamsOf (t : Json) : Option Json :=
  jGetOpt (jGet t "function") "parameters"

/-- Whether a parameters schema exposes a `headers` property to the model. -/
def hasHeadersProp (params : Option Json) : Bool :=
  (jGetOpt (jGetOpt params "properties") "headers").isSome

/-- A network oracle on which every fetch rejects; used to instantiate the
registry where the network outcome is irrelevant. -/
def trivialNet : FetchOracle :=
  fun _ _ => .error { message := "unreachable", asString := "Error: unreachable" }

/-- A chat.js oracle bundle on which every completion requests one tool call
with no argument string and every router interaction succeeds; it drives the
loop to its iteration ceiling. -/
def stubJsOracles : ChatJsOracles :=
  { listTools := .ok [],
    llm := fun _ _ => .ok (some (.obj [("tool_calls", .arr [.obj []])])),
    callTool := fun _ _ => .ok Option.none,
    parseJson := fun _ => .ok .null }


/-- C7: every well-formed tools/list request is answered with
rpcResult(id, &#x7b;tools&#x7d;) whose array lists exactly the registered tools, one
entry each, in registration order, every entry named by a non-empty name —
never an error, whatever the params. -/
theorem tools_list_complete (base : UrlBase) (token : Option String) (net : FetchOracle)
    (id : Json) (p : Option Json) :
    handleRpcSingle (amelloTools base token net) { id := id, method := "tools/list", params := p } =
      rpcResult id (.obj [("tools", .arr ((amelloTools base token net).map toolListEntry))]) ∧
    (amelloTools base token net).map Tool.name =
      ["ping", "booking_search", "booking_cancel", "find_hotels", "currencies_list",
       "hotels_list", "hotel_offers", "hotel_reference", "crapi_hotel_contact",
       "package_offer"] ∧
    ((amelloTools base token net).map Tool.name).all (fun s => !(s == "")) = true := by
  exact ⟨rfl, rfl, rfl⟩

/-- C1: on a tools/call request naming a registered tool, a handler result is
passed through as rpcResult(id, toolResult) unconditionally — in particular
even when the result carries isError true — while a handler throw is answered
with rpcError(id, -32603, "Tool execution error", message); and the mcp.js
handler wraps the routed response of any single well-formed request in
HTTP 200, so tool failures never surface as an HTTP-level 500. -/
theorem tools_call_dispatch (tools : List Tool) (r : NormReq) (t : Tool)
    (hm : r.method = "tools/call")
    (hfind : findTool tools (jGetOpt r.params "name") = some t) :
    (∀ out, t.handler (extractArgs r.params) = .ok out →
      handleRpcSingle tools r = rpcResult r.id out) ∧
    (∀ e, t.handler (extractArgs r.params) = .error e →
      handleRpcSingle tools r =
        rpcError r.id (-32603) "Tool execution error" (some (.str (excMsg e)))) ∧
    (∀ (j : Json) (acc : String), normalizeReq j = some r →
      mcpHandler tools ⟨"POST", acc, .ok j⟩ none = ⟨200, some (handleRpcSingle tools r)⟩) := by
  refine ⟨?_, ?_, ?_⟩
  · intro out hout
    simp [handleRpcSingle, hm, hfind, hout]
  · intro e he
    simp [handleRpcSingle, hm, hfind, he]
  · intro j acc hj
    cases j with
    | obj kvs =>
      simp only [mcpHandler, mcpHandlerTry]
      rw [if_neg (by decide), if_neg (fun h => absurd h.1 (by decide)), if_neg (by decide)]
      simp only [jsFalsy]
      rw [if_neg (by decide)]
      simp [hj]
    | null => simp [normalizeReq] at hj
    | bool b => simp [normalizeReq] at hj
    | num n => simp [normalizeReq] at hj
    | str s => simp [normalizeReq] at hj
    | arr xs => simp [normalizeReq] at hj

/-- Witness for C1: a one-tool registry whose handler throws "boom" yields the
-32603 execution-error envelope for the matching tools/call. -/
theorem tools_call_dispatch_witness :
    handleRpcSingle
        [{ name := "t1", description := "", inputSchema := .obj [], outputSchema := .obj [],
           handler := fun _ => .error { message := "boom", asString := "Error: boom" } }]
        { id := .num 1, method := "tools/call", params := some (.obj [("name", .str "t1")]) } =
      rpcError (.num 1) (-32603) "Tool execution error" (some (.str "boom")) := by
  exact (tools_call_dispatch
    [{ name := "t1", description := "", inputSchema := .obj [], outputSchema := .obj [],
       handler := fun _ => .error { message := "boom", asString := "Error: boom" } }]
    { id := .num 1, method := "tools/call", params := some (.obj [("name", .str "t1")]) }
    { name := "t1", description := "", inputSchema := .obj [], outputSchema := .obj [],
      handler := fun _ => .error { message := "boom", asString := "Error: boom" } }
    rfl rfl).2.1 _ rfl

/-- C4 counterexample: on the mcp.js router (cited by the claim) a tools/call
whose params carry no tool name is answered with error code -32601 — the
fall-through "Tool not found: undefined" — not the claimed -32602. -/
theorem missing_tool_name_counterexample :
    errorCodeOf (handleRpcSingle (amelloTools defaultApiBase Option.none trivialNet)
      { id := .num 7, method := "tools/call", params := some (.obj []) }) = some (-32601) := by
  rfl

/-- C4 amended: a tools/call whose params carry no tool name is answered by
the amelloTools.js router with rpcError(id, -32602, "Missing tool name in
params"), but the mcp.js router has no missing-name branch and answers
rpcError(id, -32601, "Tool not found: undefined"). -/
theorem missing_tool_name (tools : List Tool) (id : Json) (p : Option Json)
    (hname : jGetOpt p "name" = Option.none) :
    handleRpcSingleB tools { id := id, method := "tools/call", params := p } =
      rpcError id (-32602) "Missing tool name in params" none ∧
    handleRpcSingle tools { id := id, method := "tools/call", params := p } =
      rpcError id (-32601) "Tool not found: undefined" none := by
  constructor
  · simp [handleRpcSingleB, hname, jsTruthyOpt]
  · simp [handleRpcSingle, hname, findTool, jsStringOpt]

/-- Witness for C4 amended: the empty params object has no name, and both
routers answer as the amended claim states. -/
theorem missing_tool_name_witness :
    handleRpcSingleB [] { id := .num 3, method := "tools/call", params := some (.obj []) } =
      rpcError (.num 3) (-32602) "Missing tool name in params" none ∧
    handleRpcSingle [] { id := .num 3, method := "tools/call", params := some (.obj []) } =
      rpcError (.num 3) (-32601) "Tool not found: undefined" none :=
  missing_tool_name [] (.num 3) (some (.obj [])) rfl

/-- C2: the spec's URL rule — outbound target = configured API base including
its path component, concatenated with the fixed route — is what buildUrl in
amelloTools.js implements (its comment documents precisely this pitfall), but
callApi in mcp.js resolves the path-absolute route with new URL(route, base),
which discards the base's /api/v1 path: at the default configuration its
outbound URL for /currencies drops the base path and the claimed equality
fails; query parameters are appended after the path either way. -/
theorem outbound_url_concatenation :
    buildUrl defaultApiBase "/currencies" =
      "https://prod-api.amello.plusline.net/api/v1/currencies" ∧
    callApiUrl defaultApiBase "/currencies" {} =
      "https://prod-api.amello.plusline.net/currencies" ∧
    callApiUrl defaultApiBase "/currencies" {} ≠
      defaultApiBase.origin ++ defaultApiBase.pathname ++ "/currencies" ∧
    callApiUrl defaultApiBase "/currencies"
        { query := some (.obj [("locale", .str "en_DE")]) } =
      "https://prod-api.amello.plusline.net/currencies?locale=en_DE" := by
  refine ⟨rfl, rfl, ?_, rfl⟩
  intro h
  exact absurd h (by decide)

/-- C6 counterexample: a top-level exception makes the mcp.js handler answer
500 with a plain error object — code "500", message "Top-level handler crash" —
which is not the claimed rpcError(null, -32603, "Internal error") envelope: the
body carries no jsonrpc member at all. -/
theorem top_level_crash_counterexample :
    mcpHandler [] ⟨"POST", "", .ok (.obj [("method", .str "tools/list")])⟩
        (some { message := "boom", asString := "Error: boom" }) =
      ⟨500, some (.obj [("error", .obj [("code", .str "500"),
        ("message", .str "Top-level handler crash"), ("detail", .str "Error: boom")])])⟩ ∧
    (mcpHandler [] ⟨"POST", "", .ok (.obj [("method", .str "tools/list")])⟩
        (some { message := "boom", asString := "Error: boom" })).body.map isRpcEnvelope =
      some false :=
  ⟨rfl, rfl⟩

/-- C6 amended: both routers answer every request other than OPTIONS/HEAD
preflight with a JSON body, exceptions included; a top-level exception maps to
HTTP 500 whose body is rpcError(null, -32603, "Internal error", message) in
the amelloTools.js handler but the plain object with error code "500" and
message "Top-level handler crash" in the mcp.js handler. -/
theorem rpc_handler_always_json (tools : List Tool) (req : RpcHttpReq) (e : JsErr)
    (ho : req.method ≠ "OPTIONS") (hh : req.method ≠ "HEAD") :
    (∀ exc, (mcpHandler tools req exc).body.isSome = true ∧
      (amelloHandler tools req exc).body.isSome = true) ∧
    amelloHandler tools req (some e) =
      ⟨500, some (rpcError .null (-32603) "Internal error" (some (.str (excMsg e))))⟩ ∧
    mcpHandler tools req (some e) =
      ⟨500, some (.obj [("error", .obj [("code", .str "500"),
        ("message", .str "Top-level handler crash"), ("detail", .str e.asString)])])⟩ := by
  have h1 : ¬(req.method = "OPTIONS" ∨ req.method = "HEAD") := by
    rintro (h | h)
    · exact ho h
    · exact hh h
  refine ⟨?_, rfl, rfl⟩
  intro exc
  cases exc with
  | some e2 => exact ⟨rfl, rfl⟩
  | none =>
    constructor
    · simp only [mcpHandler, mcpHandlerTry]
      rw [if_neg h1]
      repeat' split
      all_goals simp
    · simp only [amelloHandler, amelloHandlerTry]
      rw [if_neg h1]
      repeat' split
      all_goals simp

/-- Witness for C6 amended: a concrete crash on a POST request produces the
two 500 bodies of the amended claim. -/
theorem rpc_handler_always_json_witness :
    amelloHandler [] ⟨"POST", "", .ok .null⟩
        (some { message := "boom", asString := "Error: boom" }) =
      ⟨500, some (rpcError .null (-32603) "Internal error" (some (.str "boom")))⟩ :=
  (rpc_handler_always_json [] ⟨"POST", "", .ok .null⟩
    { message := "boom", asString := "Error: boom" } (by decide) (by decide)).2.1

/-- A map followed by reduceOption is a filterMap; the shape the batch router
produces. -/
theorem map_reduceOption_eq_filterMap {α β : Type} (f : α → Option β) (xs : List α) :
    (xs.map f).reduceOption = xs.filterMap f := by
  induction xs with
  | nil => rfl
  | cons a t ih => cases h : f a <;> simp [List.reduceOption, List.filterMap_cons, h, ih]

/-- A filterMap over everywhere-defined options keeps the length. -/
theorem filterMap_length_of_isSome {α β : Type} (f : α → Option β) :
    ∀ xs : List α, (∀ x ∈ xs, (f x).isSome = true) → (xs.filterMap f).length = xs.length := by
  intro xs
  induction xs with
  | nil => simp
  | cons a t ih =>
    intro h
    rcases Option.isSome_iff_exists.mp (h a (by simp)) with ⟨b, hb⟩
    simp [List.filterMap_cons, hb, ih (fun x hx => h x (by simp [hx]))]

/-- C3 counterexample: a two-element batch whose second element fails shape
validation is rejected whole — HTTP 400 with a single non-array
rpcError(null, -32600) — instead of an array of length 2 carrying a positional
error object for the invalid element. -/
theorem batch_positional_counterexample :
    mcpHandler [] ⟨"POST", "",
        .ok (.arr [.obj [("jsonrpc", .str "2.0"), ("id", .num 1), ("method", .str "tools/list")],
          .num 42])⟩ none =
      ⟨400, some (rpcError .null (-32600) "Invalid Request" none)⟩ ∧
    (mcpHandler [] ⟨"POST", "",
        .ok (.arr [.obj [("jsonrpc", .str "2.0"), ("id", .num 1), ("method", .str "tools/list")],
          .num 42])⟩ none).body.map isJsonArray = some false :=
  ⟨rfl, rfl⟩

/-- C3 amended: the mcp.js handler processes a batch element-wise only when
every element is shape-valid — any invalid element rejects the whole batch
with HTTP 400 and a single non-array rpcError(null, -32600, "Invalid
Request"); an all-valid batch of any length other than one answers HTTP 200
with an array of exactly the batch's length, each position the response to the
element there, while a one-element batch answers with its single response
object unwrapped; and a non-batch request is always answered with an object,
never an array. -/
theorem batch_handling (tools : List Tool) (xs : List Json) (acc : String) :
    ((∃ x ∈ xs, normalizeReq x = Option.none) →
      mcpHandler tools ⟨"POST", acc, .ok (.arr xs)⟩ none =
        ⟨400, some (rpcError .null (-32600) "Invalid Request" none)⟩) ∧
    ((∀ x ∈ xs, (normalizeReq x).isSome = true) → xs.length ≠ 1 →
      mcpHandler tools ⟨"POST", acc, .ok (.arr xs)⟩ none =
        ⟨200, some (.arr ((xs.filterMap normalizeReq).map (handleRpcSingle tools)))⟩ ∧
      ((xs.filterMap normalizeReq).map (handleRpcSingle tools)).length = xs.length) ∧
    (∀ x r, xs = [x] → normalizeReq x = some r →
      mcpHandler tools ⟨"POST", acc, .ok (.arr xs)⟩ none =
        ⟨200, some (handleRpcSingle tools r)⟩) ∧
    (∀ r : NormReq, ∃ kvs, handleRpcSingle tools r = .obj kvs) := by
  have hpost : ¬("POST" = "OPTIONS" ∨ "POST" = "HEAD") := by decide
  refine ⟨?_, ?_, ?_, ?_⟩
  · rintro ⟨x, hx, hnone⟩
    simp only [mcpHandler, mcpHandlerTry]
    rw [if_neg hpost, if_neg (fun h => absurd h.1 (by decide)), if_neg (by decide)]
    simp only [jsFalsy]
    rw [if_neg (by decide)]
    have hany : (xs.map normalizeReq).any Option.isNone = true := by
      simp only [List.any_eq_true, List.mem_map]
      exact ⟨Option.none, ⟨x, hx, hnone⟩, rfl⟩
    simp [hany]
  · intro hall hlen
    simp only [mcpHandler, mcpHandlerTry]
    rw [if_neg hpost, if_neg (fun h => absurd h.1 (by decide)), if_neg (by decide)]
    simp only [jsFalsy]
    rw [if_neg (by decide)]
    have hany : (xs.map normalizeReq).any Option.isNone = false := by
      simp only [List.any_eq_false]
      intro o ho
      rcases List.mem_map.mp ho with ⟨x, hx, rfl⟩
      simp [Option.isNone_iff_eq_none]
      exact Option.isSome_iff_ne_none.mp (hall x hx)
    have hlength := filterMap_length_of_isSome normalizeReq xs hall
    have hred := map_reduceOption_eq_filterMap normalizeReq xs
    refine ⟨?_, by simp [hlength]⟩
    simp only [hany, Bool.false_eq_true, if_false, hred]
    have : xs.filterMap normalizeReq ≠ [] → ∀ r, xs.filterMap normalizeReq ≠ [r] := by
      intro _ r hr
      rw [hr] at hlength
      exact hlen hlength.symm
    rcases hfm : xs.filterMap normalizeReq with _ | ⟨a, _ | ⟨b, t⟩⟩
    · rfl
    · exact absurd (by rw [hfm] at hlength; exact hlength.symm) hlen
    · rfl
  · rintro x r rfl hr
    simp only [mcpHandler, mcpHandlerTry]
    rw [if_neg hpost, if_neg (fun h => absurd h.1 (by decide)), if_neg (by decide)]
    simp only [jsFalsy]
    rw [if_neg (by decide)]
    simp [hr, List.reduceOption]
  · intro r
    unfold handleRpcSingle
    split
    · exact ⟨_, rfl⟩
    split
    · rcases hf : findTool tools (jGetOpt r.params "name") with _ | t
      · simp only [hf]
        exact ⟨_, rfl⟩
      · rcases hh : t.handler (extractArgs r.params) with e | out
        · simp only [hf, hh]
          exact ⟨_, rfl⟩
        · simp only [hf, hh]
          exact ⟨_, rfl⟩
    · exact ⟨_, rfl⟩

/-- Witness for C3 amended: a one-element batch whose element is shape-invalid
is rejected with the single 400 error object. -/
theorem batch_handling_witness :
    mcpHandler [] ⟨"POST", "", .ok (.arr [.num 42])⟩ none =
      ⟨400, some (rpcError .null (-32600) "Invalid Request" none)⟩ :=
  (batch_handling [] [.num 42] "").1 ⟨.num 42, by simp, rfl⟩

/-- Rewriting the entry at one key leaves other keys' lookups unchanged. -/
theorem lookupMember_map_set_other {α : Type} (k k2 : String) (v : α) (h : k2 ≠ k) :
    ∀ kvs : List (String × α),
      lookupMember (kvs.map (fun kv => if kv.1 = k then (k, v) else kv)) k2 =
        lookupMember kvs k2 := by
  intro kvs
  induction kvs with
  | nil => rfl
  | cons a t ih =>
    by_cases ha : a.1 = k
    · have hne2 : ¬a.1 = k2 := fun he => h (ha ▸ he).symm
      have hne : ¬k = k2 := fun he => h he.symm
      simp [lookupMember, ha, hne, hne2, ih]
    · by_cases ha2 : a.1 = k2
      · simp [lookupMember, ha, ha2, h, ih]
      · simp [lookupMember, ha, ha2, h, ih]

/-- Rewriting the entry at a present key makes it look up to the new value. -/
theorem lookupMember_map_set_self {α : Type} (k : String) (v : α) :
    ∀ kvs : List (String × α), kvs.any (fun kv => decide (kv.1 = k)) = true →
      lookupMember (kvs.map (fun kv => if kv.1 = k then (k, v) else kv)) k = some v := by
  intro kvs
  induction kvs with
  | nil => simp
  | cons a t ih =>
    intro hany
    by_cases ha : a.1 = k
    · simp [lookupMember, ha]
    · simp only [List.any_cons] at hany
      rw [decide_eq_false ha, Bool.false_or] at hany
      simp [lookupMember, ha, ih hany]

/-- Appending a fresh entry keeps other keys' lookups. -/
theorem lookupMember_append_other {α : Type} (k k2 : String) (v : α) (h : k2 ≠ k) :
    ∀ kvs : List (String × α),
      lookupMember (kvs ++ [(k, v)]) k2 = lookupMember kvs k2 := by
  intro kvs
  have hne : ¬k = k2 := fun he => h he.symm
  induction kvs with
  | nil => simp [lookupMember, hne]
  | cons a t ih =>
    by_cases ha : a.1 = k2
    · simp [lookupMember, ha]
    · simp [lookupMember, ha, ih]

/-- Appending an entry for an absent key makes it look up to the new value. -/
theorem lookupMember_append_self {α : Type} (k : String) (v : α) :
    ∀ kvs : List (String × α), kvs.any (fun kv => decide (kv.1 = k)) = false →
      lookupMember (kvs ++ [(k, v)]) k = some v := by
  intro kvs
  induction kvs with
  | nil => simp [lookupMember]
  | cons a t ih =>
    intro hany
    simp only [List.any_cons, Bool.or_eq_false_iff] at hany
    have ha : ¬a.1 = k := by
      intro he
      simp [he] at hany
    simp [lookupMember, ha, ih hany.2]

/-- Setting a member makes its key look up to the set value. -/
theorem lookupMember_setMember_self {α : Type} (k : String) (v : α)
    (kvs : List (String × α)) : lookupMember (setMember kvs k v) k = some v := by
  unfold setMember
  cases hany : kvs.any (fun kv => decide (kv.1 = k)) with
  | true => simpa [hany] using lookupMember_map_set_self k v kvs hany
  | false =>
    simp only [hany, Bool.false_eq_true, if_false]
    exact lookupMember_append_self k v kvs hany

/-- Setting a member leaves every other key's lookup unchanged. -/
theorem lookupMember_setMember_other {α : Type} (k k2 : String) (v : α) (h : k2 ≠ k)
    (kvs : List (String × α)) : lookupMember (setMember kvs k v) k2 = lookupMember kvs k2 := by
  unfold setMember
  cases hany : kvs.any (fun kv => decide (kv.1 = k)) with
  | true => simpa [hany] using lookupMember_map_set_other k k2 v h kvs
  | false =>
    simp only [hany, Bool.false_eq_true, if_false]
    exact lookupMember_append_other k k2 v h kvs

/-- Spreading members none of which carry a key leaves that key's lookup. -/
theorem lookupMember_spread_not_mem {α : Type} (k : String) :
    ∀ (extra base : List (String × α)), (∀ v, (k, v) ∉ extra) →
      lookupMember (spreadMembers base extra) k = lookupMember base k := by
  intro extra
  induction extra with
  | nil => intro base _; rfl
  | cons a t ih =>
    intro base h
    have hne : k ≠ a.1 := by
      rcases a with ⟨a1, a2⟩
      intro he
      exact h a2 (by rw [he]; exact List.mem_cons_self _ _)
    have : spreadMembers base (a :: t) = spreadMembers (setMember base a.1 a.2) t := rfl
    rw [this, ih (setMember base a.1 a.2) (fun v hv => h v (by simp [hv])),
      lookupMember_setMember_other a.1 k a.2 hne]

/-- Spreading members with pairwise-distinct keys makes a carried key look up
to its value. -/
theorem lookupMember_spread_mem {α : Type} (k : String) (v : α) :
    ∀ (extra base : List (String × α)), (extra.map Prod.fst).Nodup → (k, v) ∈ extra →
      lookupMember (spreadMembers base extra) k = some v := by
  intro extra
  induction extra with
  | nil => intro base _ hmem; simp at hmem
  | cons a t ih =>
    intro base hnd hmem
    have hstep : spreadMembers base (a :: t) = spreadMembers (setMember base a.1 a.2) t := rfl
    simp only [List.map_cons, List.nodup_cons] at hnd
    rcases List.mem_cons.mp hmem with rfl | hmem2
    · have hnot : ∀ w, (k, w) ∉ t := by
        intro w hw
        exact hnd.1 (by simpa using List.mem_map_of_mem Prod.fst hw)
      rw [hstep, lookupMember_spread_not_mem k t _ hnot, lookupMember_setMember_self]
    · rw [hstep]
      exact ih _ hnd.2 hmem2

/-- C10: the outbound headers callApi builds are the Accept and Content-Type
defaults plus the Authorization derived from the environment token, with the
caller-supplied headers object spread last: any key the caller supplies wins —
in particular a caller Authorization header replaces the configured token's —
while keys the caller does not supply keep their configured defaults. -/
theorem call_api_header_merge (token : Option String) (hs : List (String × Json))
    (hnd : (hs.map Prod.fst).Nodup) :
    (∀ k v, (k, v) ∈ hs → lookupMember (callApiHeaders token (some (.obj hs))) k = some v) ∧
    ((∀ v, ("Accept", v) ∉ hs) →
      lookupMember (callApiHeaders token (some (.obj hs))) "Accept" =
        some (.str "application/json")) ∧
    ((∀ v, ("Content-Type", v) ∉ hs) →
      lookupMember (callApiHeaders token (some (.obj hs))) "Content-Type" =
        some (.str "application/json")) ∧
    (∀ t, token = some t → t ≠ "" → (∀ v, ("Authorization", v) ∉ hs) →
      lookupMember (callApiHeaders token (some (.obj hs))) "Authorization" =
        some (.str ("Bearer " ++ t))) := by
  have hch : callApiHeaders token (some (.obj hs)) =
      spreadMembers
        (spreadMembers
          [("Accept", Json.str "application/json"),
            ("Content-Type", Json.str "application/json")]
          (bearerHeaders token)) hs := rfl
  refine ⟨?_, ?_, ?_, ?_⟩
  · intro k v hmem
    rw [hch]
    exact lookupMember_spread_mem k v hs _ hnd hmem
  · intro hnot
    rw [hch, lookupMember_spread_not_mem "Accept" hs _ hnot]
    cases token with
    | none => rfl
    | some t =>
      by_cases ht : t = ""
      · simp [bearerHeaders, ht, spreadMembers, setMember, lookupMember]
      · simp [bearerHeaders, ht, spreadMembers, setMember, lookupMember]
  · intro hnot
    rw [hch, lookupMember_spread_not_mem "Content-Type" hs _ hnot]
    cases token with
    | none => rfl
    | some t =>
      by_cases ht : t = ""
      · simp [bearerHeaders, ht, spreadMembers, setMember, lookupMember]
      · simp [bearerHeaders, ht, spreadMembers, setMember, lookupMember]
  · rintro t rfl ht hnot
    rw [hch, lookupMember_spread_not_mem "Authorization" hs _ hnot]
    simp [bearerHeaders, ht, spreadMembers, setMember, lookupMember]

/-- Witness for C10: with token "T" configured, a caller-supplied Authorization
header value is the one looked up on the outbound request. -/
theorem call_api_header_merge_witness :
    lookupMember (callApiHeaders (some "T")
        (some (.obj [("Authorization", .str "custom")]))) "Authorization" =
      some (.str "custom") :=
  (call_api_header_merge (some "T") [("Authorization", .str "custom")] (by simp)).1
    "Authorization" (.str "custom") (by simp)

/-- C5 counterexample: with the tools/list fetch rejecting, the chat.js
handler answers HTTP 500 carrying the failure message — the unguarded fetch
propagates to the top-level catch instead of degrading to an empty tool set. -/
theorem chat_tools_list_failure_counterexample :
    chatJsHandler
      { listTools := .error
          ⟨"MCP tools/list failed: fetch failed", "Error: MCP tools/list failed: fetch failed"⟩,
        llm := fun _ _ => .ok Option.none,
        callTool := fun _ _ => .ok Option.none,
        parseJson := fun _ => .ok .null }
      ⟨"POST", .ok (.obj [("message", .str "hi")])⟩ =
      ⟨500, some (.obj [("error", .str "MCP tools/list failed: fetch failed")]), 0⟩ :=
  rfl

/-- C5 amended: on a tools/list failure the chat.ts handler proceeds with an
empty tool set — the completion runs with no tools advertised — and still
answers HTTP 200 with a reply; the chat.js handler instead lets the failure
propagate to its top-level catch and answers HTTP 500 with the error message. -/
theorem chat_degraded_tool_list (ocTs : ChatTsOracles) (ocJs : ChatJsOracles)
    (e e2 : JsErr) (s : String) (mkvs : List (String × Json)) (b : Json)
    (hTs : ocTs.rpcList = .error e) (hs : s ≠ "")
    (hllm : ocTs.llm Option.none
      [chatTsSystemMsg, .obj [("role", .str "user"), ("content", .str s)]] =
        .ok (some (.obj mkvs)))
    (hJs : ocJs.listTools = .error e2) (hb : jsFalsy b = false) :
    chatTsHandler ocTs ⟨"POST", some (.obj [("message", .str s)])⟩ =
      ⟨200, some (.obj ((match mkvs.lookup "content" with
        | some v => [("reply", v)]
        | none => []) ++ [("raw", .obj mkvs)])), 1⟩ ∧
    chatJsHandler ocJs ⟨"POST", .ok b⟩ =
      ⟨500, some (.obj [("error", .str (excMsg e2))]), 0⟩ := by
  constructor
  · simp [chatTsHandler, jGet, List.lookup, hTs, hs, hllm]
  · simp [chatJsHandler, jGet, List.lookup, hJs, hb]

/-- Witness for C5 amended: concrete oracles — a rejecting tools/list fetch
and a completion that answers "hello" — give the 200 degraded reply on chat.ts. -/
theorem chat_degraded_tool_list_witness :
    chatTsHandler
      ⟨.error ⟨"MCP HTTP 503 Service Unavailable", "Error: MCP HTTP 503 Service Unavailable"⟩,
        fun _ _ => .ok (some (.obj [("content", .str "hello")])),
        fun _ _ => .ok Option.none,
        fun _ => .ok .null⟩
      ⟨"POST", some (.obj [("message", .str "hi")])⟩ =
      ⟨200, some (.obj [("reply", .str "hello"),
        ("raw", .obj [("content", .str "hello")])]), 1⟩ :=
  (chat_degraded_tool_list
    ⟨.error ⟨"MCP HTTP 503 Service Unavailable", "Error: MCP HTTP 503 Service Unavailable"⟩,
      fun _ _ => .ok (some (.obj [("content", .str "hello")])),
      fun _ _ => .ok Option.none,
      fun _ => .ok .null⟩
    ⟨.error ⟨"boom", "Error: boom"⟩, fun _ _ => .ok Option.none,
      fun _ _ => .ok Option.none, fun _ => .ok .null⟩
    ⟨"MCP HTTP 503 Service Unavailable", "Error: MCP HTTP 503 Service Unavailable"⟩
    ⟨"boom", "Error: boom"⟩ "hi" [("content", .str "hello")] (.obj [])
    rfl (by decide) rfl rfl rfl).1

/-- Filtering a key out of an object's members leaves nothing for that key to
look up. -/
theorem lookup_filter_ne_none (k : String) :
    ∀ kvs : List (String × Json),
      (kvs.filter (fun kv => kv.1 ≠ k)).lookup k = none := by
  intro kvs
  induction kvs with
  | nil => rfl
  | cons a t ih =>
    rcases a with ⟨a1, a2⟩
    by_cases ha : a1 = k
    · rw [List.filter_cons, if_neg (by simp [ha])]
      exact ih
    · have hke : (k == a1) = false := beq_eq_false_iff_ne.mpr (fun he => ha he.symm)
      rw [List.filter_cons, if_pos (by simp [ha])]
      simp only [List.lookup, hke]
      exact ih

/-- C8 counterexample: translating the registered booking_search catalog entry
with the chat.js translator leaves the `headers` property visible to the model
in the function parameters. -/
theorem model_schema_headers_counterexample :
    hasHeadersProp (fnParamsOf ((toOpenAIToolsJs
      ((amelloTools defaultApiBase Option.none trivialNet).map toolListEntry)).getD 1 .null)) =
      true :=
  rfl

/-- C8 amended: the chat.ts translator deletes a truthy `headers` property
from the model-visible parameters schema, but the chat.js translator forwards
a truthy inputSchema as the parameters unmodified — headers property
included. -/
theorem model_schema_headers :
    (∀ t kvs pkvs, jGet t "inputSchema" = some (.obj kvs) →
      kvs.lookup "properties" = some (.obj pkvs) →
      jsTruthyOpt (pkvs.lookup "headers") = true →
      hasHeadersProp (fnParamsOf ((toOpenAIToolsTs [t]).getD 0 .null)) = false) ∧
    (∀ t s, jGet t "inputSchema" = some s → jsFalsy s = false →
      fnParamsOf ((toOpenAIToolsJs [t]).getD 0 .null) = some s) := by
  constructor
  · intro t kvs pkvs h1 h2 h3
    cases hname : jGet t "name" with
    | none =>
      simp only [jGet] at h1 hname
      simp [toOpenAIToolsTs, h1, h2, h3, hname, fnParamsOf, hasHeadersProp, jGet, jGetOpt,
        List.lookup, setMember, lookup_filter_ne_none]
      exact fun a b _ ha he => ha he.symm
    | some nv =>
      simp only [jGet] at h1 hname
      simp [toOpenAIToolsTs, h1, h2, h3, hname, fnParamsOf, hasHeadersProp, jGet, jGetOpt,
        List.lookup, setMember, lookup_filter_ne_none]
      exact fun a b _ ha he => ha he.symm
  · intro t s h1 h2
    cases hname : jGet t "name" with
    | none =>
      simp only [jGet] at h1 hname
      simp [toOpenAIToolsJs, h1, h2, hname, fnParamsOf, jGet, jGetOpt, List.lookup, jsOr]
    | some nv =>
      simp only [jGet] at h1 hname
      simp [toOpenAIToolsJs, h1, h2, hname, fnParamsOf, jGet, jGetOpt, List.lookup, jsOr]

/-- Witness for C8 amended: a catalog entry whose schema carries a headers
property loses it under the chat.ts translation. -/
theorem model_schema_headers_witness :
    hasHeadersProp (fnParamsOf ((toOpenAIToolsTs
      [.obj [("inputSchema", .obj [("properties",
        .obj [("headers", .obj [("type", .str "object")])])])]]).getD 0 .null)) = false :=
  model_schema_headers.1
    (.obj [("inputSchema", .obj [("properties",
      .obj [("headers", .obj [("type", .str "object")])])])])
    [("properties", .obj [("headers", .obj [("type", .str "object")])])]
    [("headers", .obj [("type", .str "object")])]
    rfl rfl rfl

/-- Each round of the chat.js loop makes exactly one completion call, so the
calls made are bounded by the fuel. -/
theorem chatJsLoop_passes_le (oc : ChatJsOracles) (oaTools : List Json) :
    ∀ (n : Nat) (msgs : List Json), (chatJsLoop oc oaTools n msgs).1 ≤ n := by
  intro n
  induction n with
  | zero => intro msgs; simp [chatJsLoop]
  | succ k ih =>
    intro msgs
    simp only [chatJsLoop]
    cases hllm : oc.llm oaTools msgs with
    | error e => simp
    | ok mo =>
      cases mo with
      | none => simp
      | some m =>
        by_cases hf : jsFalsy m = true
        · simp [hf]
        · simp only [Bool.not_eq_true] at hf
          simp only [hf, Bool.false_eq_true, if_false]
          cases hcalls : callsOf (jGet m "tool_calls") with
          | skip => simp
          | badIterable => simp
          | iterate cs =>
            cases hrun : chatJsRunCalls oc cs (msgs ++ [chatJsAssistantMsg m]) with
            | error e => simp [hrun]
            | ok msgs3 =>
              simp only [hrun]
              exact Nat.succ_le_succ (ih msgs3)

/-- Tool calls with no argument string never make the chat.js call executor
throw. -/
theorem chatJsRunCalls_ok (oc : ChatJsOracles) :
    ∀ (cs : List Json) (msgs : List Json),
      (∀ c ∈ cs, jGetOpt (jGet c "function") "arguments" = Option.none) →
      ∃ msgs2, chatJsRunCalls oc cs msgs = .ok msgs2 := by
  intro cs
  induction cs with
  | nil => intro msgs _; exact ⟨msgs, rfl⟩
  | cons c t ih =>
    intro msgs h
    have hc : jGetOpt (jGet c "function") "arguments" = Option.none := h c (by simp)
    have ht : ∀ x ∈ t, jGetOpt (jGet x "function") "arguments" = Option.none :=
      fun x hx => h x (by simp [hx])
    simp only [chatJsRunCalls, hc, jsTruthyOpt]
    exact ih _ ht

/-- When every completion requests nonempty tool calls with no argument
strings, the chat.js loop consumes all its fuel and ends in the stopped
reply, making exactly fuel-many completion calls. -/
theorem chatJsLoop_exhausts (oc : ChatJsOracles) (oaTools : List Json)
    (H : ∀ tools msgs, ∃ mkvs cs, oc.llm tools msgs = .ok (some (.obj mkvs)) ∧
      mkvs.lookup "tool_calls" = some (.arr cs) ∧ cs ≠ [] ∧
      ∀ c ∈ cs, jGetOpt (jGet c "function") "arguments" = Option.none) :
    ∀ (n : Nat) (msgs : List Json), ∃ msgs2,
      chatJsLoop oc oaTools n msgs =
        (n, .ok (msgs2, .str "(stopped after 4 tool iterations)")) := by
  intro n
  induction n with
  | zero => intro msgs; exact ⟨msgs, rfl⟩
  | succ k ih =>
    intro msgs
    rcases H oaTools msgs with ⟨mkvs, cs, hllm, hcalls, hne, hargs⟩
    rcases cs with _ | ⟨c0, ct⟩
    · exact absurd rfl hne
    rcases chatJsRunCalls_ok oc (c0 :: ct) (msgs ++ [chatJsAssistantMsg (.obj mkvs)]) hargs with
      ⟨m3, hm3⟩
    rcases ih m3 with ⟨m4, hm4⟩
    refine ⟨m4, ?_⟩
    simp only [chatJsLoop, hllm, jsFalsy, Bool.false_eq_true, if_false, jGet, hcalls, callsOf,
      hm3, hm4]

/-- C9: the chat.js tool loop performs at most 4 completion passes per request
and the chat.ts variant at most 2 (its one optional second pass); and when the
completions keep requesting tool calls so that the chat.js ceiling is reached,
the handler still answers HTTP 200 with the partial reply
"(stopped after 4 tool iterations)" rather than iterating further. -/
theorem chat_loop_bounded :
    (∀ (oc : ChatJsOracles) (req : ChatHttpReq), (chatJsHandler oc req).passes ≤ 4) ∧
    (∀ (oc : ChatTsOracles) (req : ChatTsReq), (chatTsHandler oc req).passes ≤ 2) ∧
    (∀ (oc : ChatJsOracles) (ts : List Json) (b : Json),
      oc.listTools = .ok ts → jsFalsy b = false →
      (∀ tools msgs, ∃ mkvs cs, oc.llm tools msgs = .ok (some (.obj mkvs)) ∧
        mkvs.lookup "tool_calls" = some (.arr cs) ∧ cs ≠ [] ∧
        ∀ c ∈ cs, jGetOpt (jGet c "function") "arguments" = Option.none) →
      (chatJsHandler oc ⟨"POST", .ok b⟩).status = 200 ∧
      (chatJsHandler oc ⟨"POST", .ok b⟩).passes = 4 ∧
      ∃ msgs, (chatJsHandler oc ⟨"POST", .ok b⟩).body =
        some (.obj [("messages", .arr msgs),
          ("reply", .str "(stopped after 4 tool iterations)")])) := by
  have hfin : ∀ pr : Nat × Except JsErr (List Json × Json),
      (chatJsFinish pr).passes = pr.1 := by
    rintro ⟨p, e | ⟨msgs, reply⟩⟩ <;> rfl
  refine ⟨?_, ?_, ?_⟩
  · intro oc req
    unfold chatJsHandler
    repeat' split
    any_goals simp
    all_goals rw [hfin]; exact chatJsLoop_passes_le _ _ _ _
  · intro oc req
    rcases req with ⟨meth, body⟩
    unfold chatTsHandler
    split
    · simp
    rcases body with _ | v
    · simp [jGet]
    · rcases v with _ | b | n | sv | xs | kvs
      · simp [jGet]
      · simp [jGet]
      · simp [jGet]
      · simp [jGet]
      · simp [jGet]
      · dsimp only
        repeat' split
        all_goals simp
  · intro oc ts b hlt hb H
    have hE := chatJsLoop_exhausts oc (toOpenAIToolsJs ts) H 4
      (Json.obj [("role", .str "system"), ("content", jsOr (jGet b "system")
        (.str "You are a helpful assistant. Use available tools when helpful."))] ::
        (match jGet b "messages" with
         | some (.arr xs) => xs
         | _ => []))
    rcases hE with ⟨m2, hm2⟩
    refine ⟨?_, ?_, ⟨m2, ?_⟩⟩ <;>
      simp [chatJsHandler, hb, hlt, hm2, chatJsFinish]

/-- Witness for C9: with an oracle whose every completion requests one tool
call, the chat.js handler reaches the ceiling — HTTP 200 after exactly 4
completion passes. -/
theorem chat_loop_bounded_witness :
    (chatJsHandler stubJsOracles ⟨"POST", .ok (.obj [])⟩).status = 200 ∧
    (chatJsHandler stubJsOracles ⟨"POST", .ok (.obj [])⟩).passes = 4 :=
  ⟨(chat_loop_bounded.2.2 stubJsOracles [] (.obj []) rfl rfl
      (fun _ _ => ⟨[("tool_calls", .arr [.obj []])], [.obj []], rfl, rfl,
        by simp, by intro c hc; rw [List.mem_singleton.mp hc]; rfl⟩)).1,
   (chat_loop_bounded.2.2 stubJsOracles [] (.obj []) rfl rfl
      (fun _ _ => ⟨[("tool_calls", .arr [.obj []])], [.obj []], rfl, rfl,
        by simp, by intro c hc; rw [List.mem_singleton.mp hc]; rfl⟩)).2.1⟩
